import Mathlib

/-!
Verification of the Linqkeun Mini ERP backend (FastAPI + Pydantic).

Shallow embedding conventions:
* Python floats are modelled as exact rationals (`ℚ`).
* `datetime.utcnow()` instants are modelled as an abstract `ℕ` parameter
  passed to each create operation (the server-stamped wall clock).
* Pydantic validation of a request body is modelled as a function from a
  "raw" payload (optional fields are `Option`s, before defaults are filled)
  to `Option` of the validated record; `none` is a validation error
  (HTTP 422).  Fields with no declared constraint are accepted as-is,
  exactly as the corresponding Pydantic model declares.
* `main.py` declares its own route models (`CreateCustomer`, `CreateProduct`,
  `InvoiceItem`, `CreateInvoice`); `schemas.py` declares a parallel set of
  models (`InvoiceItem` with `quantity > 0`, `Customer` with `EmailStr`,
  `JournalLine`, `Supplier`, `Role`, ...). Both layers are embedded, with the
  `schemas.py` ones under `Schemas.`-prefixed names.
-/

/-- Python's `round(x, 2)` helper: round to nearest integer, ties to even
(banker's rounding), on exact rationals. -/
def roundHalfEven (x : ℚ) : ℤ :=
  let n := ⌊x⌋
  let r := x - n
  if r < 1/2 then n
  else if 1/2 < r then n + 1
  else if n % 2 = 0 then n else n + 1

/-- Round a rational to 2 decimal places, ties to even (`round(total, 2)`,
main.py line 145). -/
def round2 (x : ℚ) : ℚ := (roundHalfEven (100 * x) : ℚ) / 100

/-- main.py lines 127-132: the `InvoiceItem` Pydantic model used by the
`POST /invoices` route.  No bound is declared on `quantity` or `price`;
`tax_rate` defaults to `0.11`. -/
structure InvoiceItem where
  product_id : String
  name : String
  quantity : ℚ
  price : ℚ
  tax_rate : ℚ := 11/100
deriving DecidableEq, Repr

/-- An invoice item as it appears in a request body, before validation:
`tax_rate` may be omitted. -/
structure RawInvoiceItem where
  product_id : String
  name : String
  quantity : ℚ
  price : ℚ
  tax_rate : Option ℚ := none
deriving DecidableEq, Repr

/-- Pydantic validation of main.py `InvoiceItem`: no constraints are
declared, so every item is accepted and an omitted `tax_rate` becomes
`0.11`. -/
def validateInvoiceItem (r : RawInvoiceItem) : InvoiceItem :=
  { product_id := r.product_id
    name := r.name
    quantity := r.quantity
    price := r.price
    tax_rate := r.tax_rate.getD (11/100) }

/-- main.py lines 134-137: the `CreateInvoice` route model.  `items` is a
plain `List` (no non-emptiness constraint); `currency` defaults to `"IDR"`. -/
structure CreateInvoice where
  customer_id : String
  items : List InvoiceItem
  currency : String := "IDR"
deriving DecidableEq, Repr

/-- Pydantic parsing of a `POST /invoices` body into `CreateInvoice`.
`CreateInvoice` declares no list-level or numeric constraint, so parsing
always succeeds once the required fields are present (which the typed
arguments encode); per-item defaults are filled by `validateInvoiceItem`. -/
def parseCreateInvoice (customer_id : String) (rawItems : List RawInvoiceItem)
    (currency : Option String) : Option CreateInvoice :=
  some { customer_id := customer_id
         items := rawItems.map validateInvoiceItem
         currency := currency.getD "IDR" }

/-- main.py line 144: `sum(i["quantity"]*i["price"]*(1+i.get("tax_rate",0)) for i in items)`.
After validation `tax_rate` is always present in the dumped dict, so
`i.get("tax_rate", 0)` is the item's own `tax_rate`. -/
def invoiceTotal (items : List InvoiceItem) : ℚ :=
  (items.map (fun i => i.quantity * i.price * (1 + i.tax_rate))).sum

/-- The persisted/returned invoice document of `POST /invoices`
(main.py lines 139-147): payload fields plus `status`, `created_at`,
`total` and the storage id. -/
structure InvoiceDoc where
  id : String
  customer_id : String
  items : List InvoiceItem
  currency : String
  status : String
  created_at : ℕ
  total : ℚ
deriving DecidableEq, Repr

/-- main.py lines 139-147, `create_invoice`: dump the validated payload,
set `status := "draft"`, stamp `created_at`, compute `total`, persist and
return with the storage-assigned id. -/
def create_invoice (invId : String) (now : ℕ) (p : CreateInvoice) : InvoiceDoc :=
  { id := invId
    customer_id := p.customer_id
    items := p.items
    currency := p.currency
    status := "draft"
    created_at := now
    total := round2 (invoiceTotal p.items) }

/-- schemas.py lines 76-81: the `InvoiceItem` model of the schema registry,
with `quantity: Field(gt=0)` and `price: Field(ge=0)`. -/
structure SchemasInvoiceItem where
  product_id : String
  name : String
  quantity : ℚ
  price : ℚ
  tax_rate : ℚ := 11/100
deriving DecidableEq, Repr

/-- Pydantic validation of schemas.py `InvoiceItem`: rejects `quantity ≤ 0`
and `price < 0`, defaults `tax_rate` to `0.11`. -/
def validateSchemasInvoiceItem (r : RawInvoiceItem) : Option SchemasInvoiceItem :=
  if 0 < r.quantity ∧ 0 ≤ r.price then
    some { product_id := r.product_id
           name := r.name
           quantity := r.quantity
           price := r.price
           tax_rate := r.tax_rate.getD (11/100) }
  else none

/-- main.py lines 86-89: the `CreateCustomer` route model of `POST /customers`.
`email` is a plain `Optional[str]` (no `EmailStr`), so no syntax check is
declared. -/
structure CreateCustomer where
  name : String
  email : Option String := none
  phone : Option String := none
deriving DecidableEq, Repr

/-- Pydantic parsing of a `POST /customers` body: `CreateCustomer` declares
no constraint beyond the required `name`, so every payload with a `name`
is accepted unchanged. -/
def parseCreateCustomer (name : String) (email phone : Option String) :
    Option CreateCustomer :=
  some { name := name, email := email, phone := phone }

/-- Modelled from the spec: "Email-shaped fields must pass a standard
email-syntax check; malformed addresses are rejected".  The actual checker
(Pydantic `EmailStr`, backed by the email-validator library) is not under
src/; a standard check requires a single `@` separating a non-empty local
part from a non-empty domain containing a dot. -/
def emailSyntaxOk (s : String) : Bool :=
  let cs := s.toList
  let lp := cs.takeWhile (fun c => c ≠ '@')
  match cs.dropWhile (fun c => c ≠ '@') with
  | [] => false
  | _ :: dom => !lp.isEmpty && !dom.isEmpty && dom.contains '.' && !dom.contains '@'

/-- schemas.py lines 37-45: the `Customer` model of the schema registry,
with `email: Optional[EmailStr]` and `tags` defaulting to the empty list. -/
structure SchemasCustomer where
  name : String
  email : Option String := none
  phone : Option String := none
  company : Option String := none
  address : Option String := none
  tags : List String := []
  source : Option String := none
  assigned_to : Option String := none
deriving DecidableEq, Repr

/-- Pydantic validation of schemas.py `Customer`: a present `email` must
pass the `EmailStr` syntax check (`emailSyntaxOk`, modelled from the spec);
an omitted `tags` becomes the empty list via its default factory. -/
def validateSchemasCustomer (name : String) (email phone company address : Option String)
    (tags : Option (List String)) (source assigned_to : Option String) :
    Option SchemasCustomer :=
  if (match email with | none => true | some e => emailSyntaxOk e) then
    some { name := name, email := email, phone := phone, company := company
           address := address, tags := tags.getD [], source := source
           assigned_to := assigned_to }
  else none

/-- Replace an omitted `tax_rate` by the explicit value `0.11` (the declared
default), leaving explicitly supplied rates untouched. -/
def fillTaxRate (r : RawInvoiceItem) : RawInvoiceItem :=
  { r with tax_rate := some (r.tax_rate.getD (11/100)) }

/-- A `POST /invoices` request body as sent by the caller.  `extra_total`
models a `"total"` key the caller may include: `CreateInvoice` does not
declare such a field, and Pydantic's default config silently ignores
unknown keys, so it never reaches the route handler. -/
structure RawInvoiceBody where
  customer_id : String
  items : List RawInvoiceItem
  currency : Option String := none
  extra_total : Option ℚ := none
deriving DecidableEq, Repr

/-- Parsing a `POST /invoices` body: the declared fields are read and any
caller-supplied `"total"` key is ignored (Pydantic ignores unknown keys). -/
def parseInvoiceBody (b : RawInvoiceBody) : Option CreateInvoice :=
  parseCreateInvoice b.customer_id b.items b.currency

/-- schemas.py lines 158-162: the `JournalLine` model.  `debit` and `credit`
are plain floats defaulting to `0.0`; no `ge=0` bound is declared. -/
structure JournalLine where
  account_code : String
  debit : ℚ := 0
  credit : ℚ := 0
  memo : Option String := none
deriving DecidableEq, Repr

/-- A journal line as sent by the caller, before defaults are filled. -/
structure RawJournalLine where
  account_code : String
  debit : Option ℚ := none
  credit : Option ℚ := none
  memo : Option String := none
deriving DecidableEq, Repr

/-- Pydantic validation of schemas.py `JournalLine`: omitted `debit`/`credit`
become `0`; no numeric bound is declared, so every payload is accepted. -/
def validateJournalLine (r : RawJournalLine) : Option JournalLine :=
  some { account_code := r.account_code
         debit := r.debit.getD 0
         credit := r.credit.getD 0
         memo := r.memo }

/-- An optional email field passes when absent or syntactically valid. -/
def emailFieldOk : Option String → Bool
  | none => true
  | some e => emailSyntaxOk e

/-- schemas.py line 132: `rating: Optional[float] = Field(default=None, ge=0, le=5)`. -/
def ratingOk : Option ℚ → Bool
  | none => true
  | some r => decide (0 ≤ r) && decide (r ≤ 5)

/-- schemas.py lines 127-132: the `Supplier` model, with `email` an optional
`EmailStr` and `rating` an optional float bounded to `[0, 5]`. -/
structure Supplier where
  name : String
  email : Option String := none
  phone : Option String := none
  address : Option String := none
  rating : Option ℚ := none
deriving DecidableEq, Repr

/-- Pydantic validation of schemas.py `Supplier`: a present `email` must
pass the syntax check and a present `rating` must lie in `[0, 5]`. -/
def validateSupplier (name : String) (email phone address : Option String)
    (rating : Option ℚ) : Option Supplier :=
  if emailFieldOk email && ratingOk rating then
    some { name := name, email := email, phone := phone, address := address
           rating := rating }
  else none

/-- schemas.py lines 22-24: the allowed `Role.name` literals. -/
def roleNames : List String :=
  ["owner", "admin", "manager", "sales", "warehouse", "procurement",
   "finance", "hr", "employee"]

/-- schemas.py lines 21-25: the `Role` model; `permissions` defaults to the
empty list via `Field(default_factory=list)`. -/
structure Role where
  name : String
  permissions : List String := []
deriving DecidableEq, Repr

/-- Pydantic validation of schemas.py `Role`: `name` must be one of the
declared literals; an omitted `permissions` becomes the empty list. -/
def validateRole (name : String) (permissions : Option (List String)) :
    Option Role :=
  if roleNames.contains name then
    some { name := name, permissions := permissions.getD [] }
  else none

/-- JSON-like values of a persisted document (Python dict values). -/
inductive Value where
  | vNull : Value
  | vStr : String → Value
  | vNum : ℚ → Value
  | vTime : ℕ → Value
deriving DecidableEq, Repr

/-- `payload.model_dump()` for `CreateCustomer` (main.py line 93): the dict
of the declared payload fields, omitted optionals dumped as `None`. -/
def dumpCustomer (p : CreateCustomer) : List (String × Value) :=
  [("name", Value.vStr p.name),
   ("email", (p.email.map Value.vStr).getD Value.vNull),
   ("phone", (p.phone.map Value.vStr).getD Value.vNull)]

/-- main.py lines 91-96, `create_customer`: dump the payload, append
`created_at`, persist, and return `{"id": cid, **customer}` — the document
as an ordered key/value list, `id` first, `created_at` last. -/
def create_customer (cid : String) (now : ℕ) (p : CreateCustomer) :
    List (String × Value) :=
  ("id", Value.vStr cid) :: (dumpCustomer p ++ [("created_at", Value.vTime now)])

/-- main.py lines 106-109: the `CreateProduct` route model of `POST /products`. -/
structure CreateProduct where
  sku : String
  name : String
  price : ℚ
deriving DecidableEq, Repr

/-- `payload.model_dump()` for `CreateProduct` (main.py line 113). -/
def dumpProduct (p : CreateProduct) : List (String × Value) :=
  [("sku", Value.vStr p.sku),
   ("name", Value.vStr p.name),
   ("price", Value.vNum p.price)]

/-- main.py lines 111-116, `create_product`: dump the payload, append
`created_at`, persist, and return `{"id": pid, **data}`. -/
def create_product (pid : String) (now : ℕ) (p : CreateProduct) :
    List (String × Value) :=
  ("id", Value.vStr pid) :: (dumpProduct p ++ [("created_at", Value.vTime now)])

/-- C1: for every accepted `POST /invoices` payload the returned invoice's
`total` is the sum over its items of quantity × price × (1 + tax_rate),
rounded to 2 decimal places; and for customer "C1" with the single item
(quantity 2, price 100, tax_rate 0.11) the total is 222. -/
theorem create_invoice_total_formula :
    (∀ (invId : String) (now : ℕ) (p : CreateInvoice),
        (create_invoice invId now p).total
          = round2 ((p.items.map (fun i => i.quantity * i.price * (1 + i.tax_rate))).sum))
    ∧ (create_invoice "inv-1" 0
        { customer_id := "C1"
          items := [{ product_id := "P1", name := "Widget",
                      quantity := 2, price := 100, tax_rate := 11/100 }] }).total = 222 := by
  refine ⟨fun invId now p => rfl, ?_⟩
  show round2 (invoiceTotal _) = 222
  norm_num [invoiceTotal, round2, roundHalfEven]

/-- C2 counterexample: the `POST /invoices` route accepts a payload with an
empty items list and a payload whose item has `quantity = 0` — its route
model `CreateInvoice`/`InvoiceItem` (main.py) declares no such constraints,
contradicting the claim that invoice creation rejects them. -/
theorem invoice_validation_accepts_empty_and_zero :
    (parseCreateInvoice "C1" [] none).isSome = true
    ∧ (parseCreateInvoice "C1"
        [{ product_id := "P1", name := "Widget", quantity := 0, price := 10 }]
        none).isSome = true :=
  ⟨rfl, rfl⟩

/-- C2 amended: invoice creation via `POST /invoices` accepts every items
list (empty included) and every quantity, because the route declares its own
unconstrained models; only the separate schemas-layer `InvoiceItem`
(schemas.py, unused by the route) rejects `quantity = 0` via its `gt=0`
bound, and no layer rejects an empty items list. -/
theorem invoice_item_constraints_location :
    (∀ (cid : String) (cur : Option String) (rawItems : List RawInvoiceItem),
        (parseCreateInvoice cid rawItems cur).isSome = true)
    ∧ (∀ r : RawInvoiceItem, r.quantity = 0 → validateSchemasInvoiceItem r = none) := by
  refine ⟨fun cid cur rawItems => rfl, fun r h => ?_⟩
  simp [validateSchemasInvoiceItem, h]

/-- C2 amended, witness: the route accepts the empty items list, and the
schemas-layer `InvoiceItem` rejects a concrete zero-quantity item. -/
theorem invoice_item_constraints_location_witness :
    (parseCreateInvoice "C1" [] none).isSome = true
    ∧ validateSchemasInvoiceItem
        { product_id := "P1", name := "Widget", quantity := 0, price := 10 } = none :=
  ⟨invoice_item_constraints_location.1 "C1" none [],
   invoice_item_constraints_location.2 _ rfl⟩

/-- C3 counterexample: `"not-an-email"` fails every standard email-syntax
check (it has no `@`), yet `POST /customers` accepts it unchanged — the
route model `CreateCustomer` (main.py) types `email` as a plain optional
string, contradicting the claim that malformed emails are rejected. -/
theorem customer_creation_accepts_malformed_email :
    emailSyntaxOk "not-an-email" = false
    ∧ parseCreateCustomer "Alice" (some "not-an-email") none
        = some { name := "Alice", email := some "not-an-email", phone := none } :=
  ⟨by decide, rfl⟩

/-- C3 amended: customer creation via `POST /customers` performs no email
validation (any string is accepted), because its route model uses a plain
optional string; only the schemas-layer `Customer` (schemas.py, unused by
the route) declares `EmailStr`, under which a syntactically malformed
email is rejected. -/
theorem customer_email_check_location :
    (∀ (name : String) (email phone : Option String),
        parseCreateCustomer name email phone
          = some { name := name, email := email, phone := phone })
    ∧ (∀ (name e : String) (phone company address : Option String)
        (tags : Option (List String)) (source assigned_to : Option String),
        emailSyntaxOk e = false →
        validateSchemasCustomer name (some e) phone company address tags
          source assigned_to = none) := by
  refine ⟨fun _ _ _ => rfl,
          fun name e phone company address tags source assigned_to h => ?_⟩
  simp [validateSchemasCustomer, h]

/-- C3 amended, witness: the route accepts a concrete malformed email, and
the schemas-layer `Customer` rejects it. -/
theorem customer_email_check_location_witness :
    parseCreateCustomer "Alice" (some "not-an-email") none
      = some { name := "Alice", email := some "not-an-email", phone := none }
    ∧ validateSchemasCustomer "Alice" (some "not-an-email") none none none
        none none none = none :=
  ⟨customer_email_check_location.1 "Alice" (some "not-an-email") none,
   customer_email_check_location.2 "Alice" "not-an-email" none none none
     none none none (by decide)⟩

/-- Validating an item whose omitted `tax_rate` was replaced by the explicit
default `0.11` gives the same validated item. -/
theorem validateInvoiceItem_fillTaxRate (r : RawInvoiceItem) :
    validateInvoiceItem (fillTaxRate r) = validateInvoiceItem r := by
  obtain ⟨pid, n, q, pr, t⟩ := r
  cases t <;> rfl

/-- C4: the invoice total uses each line's own `tax_rate`, and an omitted
`tax_rate` contributes as `0.11`: for every items list, replacing every
omitted `tax_rate` by the explicit value `0.11` leaves the invoice produced
by `POST /invoices` (its computed total included) unchanged. -/
theorem invoice_tax_rate_default :
    ∀ (invId : String) (now : ℕ) (cid : String) (cur : Option String)
      (rawItems : List RawInvoiceItem),
      (parseCreateInvoice cid (rawItems.map fillTaxRate) cur).map (create_invoice invId now)
        = (parseCreateInvoice cid rawItems cur).map (create_invoice invId now) := by
  intro invId now cid cur rawItems
  have h : rawItems.map (fun r => validateInvoiceItem (fillTaxRate r))
      = rawItems.map validateInvoiceItem :=
    List.map_congr_left (fun a _ => validateInvoiceItem_fillTaxRate a)
  simp [parseCreateInvoice, List.map_map, Function.comp_def, h]

/-- C5: every invoice returned by `POST /invoices` carries the
server-stamped `created_at` and the initial status `"draft"`, and its
`total` is the server-computed value: a caller-supplied `"total"` key is
ignored by parsing, and the returned document's `total` is exactly the
rounded item-sum. -/
theorem create_invoice_server_stamped :
    ∀ (invId : String) (now : ℕ) (b : RawInvoiceBody) (q : Option ℚ),
      parseInvoiceBody { b with extra_total := q } = parseInvoiceBody b
      ∧ (parseInvoiceBody b).map (create_invoice invId now)
          = some { id := invId
                   customer_id := b.customer_id
                   items := b.items.map validateInvoiceItem
                   currency := b.currency.getD "IDR"
                   status := "draft"
                   created_at := now
                   total := round2 (invoiceTotal (b.items.map validateInvoiceItem)) } := by
  intro invId now b q
  obtain ⟨cid, its, cur, et⟩ := b
  exact ⟨rfl, rfl⟩

/-- C6 counterexample: a journal line with `debit = -1` is accepted by
validation — schemas.py `JournalLine` declares no `ge=0` bound —
contradicting the claim that negative debits are rejected. -/
theorem journal_line_accepts_negative :
    validateJournalLine { account_code := "1000", debit := some (-1) }
      = some { account_code := "1000", debit := -1, credit := 0, memo := none } :=
  rfl

/-- C6 amended: `JournalLine` defaults `debit` and `credit` to `0` when
omitted, but declares no non-negativity bound: every payload is accepted,
negative debit or credit values included, with values unchanged. -/
theorem journal_line_defaults_no_bounds :
    (∀ (a : String) (m : Option String),
        validateJournalLine { account_code := a, memo := m }
          = some { account_code := a, debit := 0, credit := 0, memo := m })
    ∧ (∀ (a : String) (d c : ℚ) (m : Option String),
        validateJournalLine
            { account_code := a, debit := some d, credit := some c, memo := m }
          = some { account_code := a, debit := d, credit := c, memo := m }) :=
  ⟨fun _ _ => rfl, fun _ _ _ _ => rfl⟩

/-- C7: supplier validation accepts a rating of exactly 0 and exactly 5,
and rejects every rating outside `[0, 5]`. -/
theorem supplier_rating_bounds :
    ∀ (n : String),
      (validateSupplier n none none none (some 0)).isSome = true
      ∧ (validateSupplier n none none none (some 5)).isSome = true
      ∧ ∀ r : ℚ, (r < 0 ∨ 5 < r) →
          validateSupplier n none none none (some r) = none := by
  intro n
  refine ⟨rfl, rfl, fun r h => ?_⟩
  rcases h with h | h
  · simp [validateSupplier, ratingOk, emailFieldOk, not_le.mpr h]
  · simp [validateSupplier, ratingOk, emailFieldOk, not_le.mpr h]

/-- C7 witness: rating 0 and 5 are accepted for a concrete supplier, and
rating 5.01 is rejected. -/
theorem supplier_rating_bounds_witness :
    (validateSupplier "ACME" none none none (some 0)).isSome = true
    ∧ (validateSupplier "ACME" none none none (some 5)).isSome = true
    ∧ validateSupplier "ACME" none none none (some (501/100)) = none :=
  ⟨(supplier_rating_bounds "ACME").1, (supplier_rating_bounds "ACME").2.1,
   (supplier_rating_bounds "ACME").2.2 (501/100) (Or.inr (by norm_num))⟩

/-- C8: omitting a default-factory list field succeeds and yields the empty
list: a schemas-layer `Customer` payload without `tags` validates to a
record with `tags = []`, and a `Role` payload with a valid name and no
`permissions` validates to a record with `permissions = []`. -/
theorem default_factory_list_fields :
    (∀ n : String,
        validateSchemasCustomer n none none none none none none none
          = some { name := n })
    ∧ (∀ nm : String, roleNames.contains nm = true →
        validateRole nm none = some { name := nm, permissions := [] }) := by
  refine ⟨fun n => rfl, fun nm h => ?_⟩
  unfold validateRole
  rw [if_pos h]
  rfl

/-- C8 witness: a concrete customer payload omitting `tags` validates with
`tags = []`, and role `"admin"` omitting `permissions` validates with
`permissions = []`. -/
theorem default_factory_list_fields_witness :
    validateSchemasCustomer "Alice" none none none none none none none
      = some { name := "Alice" }
    ∧ validateRole "admin" none = some { name := "admin", permissions := [] } :=
  ⟨default_factory_list_fields.1 "Alice",
   default_factory_list_fields.2 "admin" (by decide)⟩

/-- C9: the invoice total derivation is deterministic and idempotent: two
invoices created from the same items list get the same total (whatever the
ids, timestamps and other fields), and recomputing the total from a created
invoice's items reproduces its stored total. -/
theorem invoice_total_deterministic :
    ∀ (id1 id2 : String) (now1 now2 : ℕ) (p q : CreateInvoice),
      p.items = q.items →
      (create_invoice id1 now1 p).total = (create_invoice id2 now2 q).total
      ∧ round2 (invoiceTotal (create_invoice id1 now1 p).items)
          = (create_invoice id1 now1 p).total := by
  intro id1 id2 now1 now2 p q h
  exact ⟨by simp [create_invoice, h], rfl⟩

/-- C9 witness: two concrete invoices sharing an items list get the same
total, which recomputation reproduces. -/
theorem invoice_total_deterministic_witness :
    (create_invoice "a" 0
        { customer_id := "C1"
          items := [{ product_id := "P1", name := "Widget", quantity := 2, price := 100 }] }).total
      = (create_invoice "b" 1
        { customer_id := "C2"
          items := [{ product_id := "P1", name := "Widget", quantity := 2, price := 100 }] }).total
    ∧ round2 (invoiceTotal (create_invoice "a" 0
        { customer_id := "C1"
          items := [{ product_id := "P1", name := "Widget", quantity := 2, price := 100 }] }).items)
      = (create_invoice "a" 0
        { customer_id := "C1"
          items := [{ product_id := "P1", name := "Widget", quantity := 2, price := 100 }] }).total :=
  invoice_total_deterministic "a" "b" 0 1 _ _ rfl

/-- C10: the documents returned by `POST /customers` and `POST /products`
carry exactly the payload's fields with unchanged values plus exactly two
server-added fields, `id` and `created_at`. -/
theorem create_docs_frame :
    ∀ (cid pid : String) (now : ℕ) (c : CreateCustomer) (p : CreateProduct),
      ((create_customer cid now c).map Prod.fst
          = ["id", "name", "email", "phone", "created_at"]
        ∧ List.lookup "name" (create_customer cid now c)
            = List.lookup "name" (dumpCustomer c)
        ∧ List.lookup "email" (create_customer cid now c)
            = List.lookup "email" (dumpCustomer c)
        ∧ List.lookup "phone" (create_customer cid now c)
            = List.lookup "phone" (dumpCustomer c)
        ∧ List.lookup "id" (create_customer cid now c) = some (Value.vStr cid)
        ∧ List.lookup "created_at" (create_customer cid now c)
            = some (Value.vTime now))
      ∧ ((create_product pid now p).map Prod.fst
          = ["id", "sku", "name", "price", "created_at"]
        ∧ List.lookup "sku" (create_product pid now p)
            = List.lookup "sku" (dumpProduct p)
        ∧ List.lookup "name" (create_product pid now p)
            = List.lookup "name" (dumpProduct p)
        ∧ List.lookup "price" (create_product pid now p)
            = List.lookup "price" (dumpProduct p)
        ∧ List.lookup "id" (create_product pid now p) = some (Value.vStr pid)
        ∧ List.lookup "created_at" (create_product pid now p)
            = some (Value.vTime now)) := by
  intro cid pid now c p
  exact ⟨⟨rfl, rfl, rfl, rfl, rfl, rfl⟩, ⟨rfl, rfl, rfl, rfl, rfl, rfl⟩⟩
